import Mathlib

/-!
# Verification of the homework-status Telegram bot

Shallow embedding of `src/homework.py` and `src/exceptions.py`.

The program polls an HTTP API, validates the JSON response, formats the first
homework entry's status into a human-readable message and forwards it to a
Telegram chat, classifying every failure into a two-tier error taxonomy
(`CommonError` = log-only, `GeneralError` family = must-notify).

Modelling decisions:
* Python/JSON values are the inductive `Value` (None, bool, int, str, list,
  dict).  Dicts are association lists; `k in d` is `(d.lookup k).isSome`,
  `d[k]` / `d.get(k)` is `(d.lookup k).getD Value.none` at places where the
  source has established the key is present (or uses `.get`).
* The exceptions of `src/exceptions.py` plus the built-in `KeyError` and
  `TypeError` are the inductive `PyExc`; the Python class hierarchy
  (`ConnectionError`, `WrongStatusCodeError`, `MessageNotSentError` all
  subclass `GeneralError`) is the predicate `PyExc.isGeneralExc`.
* Fallible functions return `Except PyExc α`.
* The outside world seen by one loop iteration is a `Stimulus` (the HTTP
  interaction of `requests.get` / `.json()`) plus, for each potential
  `bot.send_message` call, an `Option String` holding the text of the
  `telegram.error.TelegramError` it raises (`none` = delivery succeeds).
* One iteration of `main`'s `while True:` body is `runCycle`; its
  `CycleResult` records the next cursor value, the messages successfully
  delivered to the chat, the `logging.error` entries written by `main`'s
  handlers, the exception caught by `main`'s `except` clauses, whether the
  `try` body ran to completion, and the exception (if any) escaping the loop
  body.  Crucially, an exception raised *inside* the
  `except exceptions.GeneralError` handler is NOT caught by the sibling
  `except Exception` clause (Python semantics), so it is recorded as
  escaping.
* Values read from the environment (`os.getenv`) are modelled as absent
  (`None`), as in a clean environment; no claim depends on them.
-/

namespace HomeworkBot

/-- A Python/JSON value, covering everything the bot ever stores in a
response, an entry, or the timestamp cursor. -/
inductive Value where
  | none  : Value
  | bool  : Bool → Value
  | int   : Int → Value
  | str   : String → Value
  | list  : List Value → Value
  | dict  : List (String × Value) → Value

/-- A Python dict as the bot sees it: string keys to values. -/
abbrev PyDict := List (String × Value)

/-- Python's `repr()` on our values (used by `str()` on containers and by
f-string interpolation of dicts such as `params`). -/
def Value.pyRepr : Value → String
  | .none => "None"
  | .bool b => if b then "True" else "False"
  | .int n => toString n
  | .str s => "'" ++ s ++ "'"
  | .list xs => "[" ++ String.intercalate ", " (xs.attach.map (fun x => x.1.pyRepr)) ++ "]"
  | .dict ps =>
      "\x7b" ++
        String.intercalate ", "
          (ps.attach.map (fun p => "'" ++ p.1.1 ++ "': " ++ p.1.2.pyRepr)) ++
      "\x7d"
decreasing_by
  · have h := List.sizeOf_lt_of_mem x.2
    simp only [Value.list.sizeOf_spec]
    omega
  · have h := List.sizeOf_lt_of_mem p.2
    have h2 : sizeOf p.1.2 < sizeOf p.1 := by
      obtain ⟨⟨a, b⟩, hp⟩ := p
      simp
    simp only [Value.dict.sizeOf_spec]
    omega

/-- Python's `str()` on our values (f-string interpolation of a value such as
`homework_name`): strings render as themselves, containers via `repr`. -/
def Value.pyStr : Value → String
  | .str s => s
  | .bool b => if b then "True" else "False"
  | v => v.pyRepr

/-- Python's `str(type(x))`. -/
def Value.typeStr : Value → String
  | .none => "<class 'NoneType'>"
  | .bool _ => "<class 'bool'>"
  | .int _ => "<class 'int'>"
  | .str _ => "<class 'str'>"
  | .list _ => "<class 'list'>"
  | .dict _ => "<class 'dict'>"

/-- The bare Python type name, as interpolated into built-in error messages
such as `TypeError: argument of type 'int' is not iterable`. -/
def Value.typeName : Value → String
  | .none => "NoneType"
  | .bool _ => "bool"
  | .int _ => "int"
  | .str _ => "str"
  | .list _ => "list"
  | .dict _ => "dict"

/-- Python's `==` between a value and a string (as used by `in` on a list):
only a `str` can compare equal to a string. -/
def Value.eqStr : Value → String → Bool
  | .str s, t => s == t
  | _, _ => false

/-- Whether `needle` occurs as a contiguous run inside the character list. -/
def charsInfix (needle : List Char) : List Char → Bool
  | [] => needle.isEmpty
  | c :: cs => needle.isPrefixOf (c :: cs) || charsInfix needle cs

/-- Python's substring test `needle in s` on strings. -/
def strContains (s needle : String) : Bool :=
  charsInfix needle.data s.data

/-- Python's `k in d` on a dict. -/
def pyContains (d : PyDict) (k : String) : Bool :=
  (d.lookup k).isSome

/-- Python's `str(d.keys())`, e.g. `dict_keys(['homeworks'])`; interpolated
into the validator's and formatter's error messages. -/
def keysStr (d : PyDict) : String :=
  "dict_keys([" ++ String.intercalate ", " (d.map (fun p => "'" ++ p.1 ++ "'")) ++ "])"

/-- The exceptions that can cross a component boundary in this program:
the taxonomy of `src/exceptions.py` plus the built-ins `KeyError` and
`TypeError` raised by `check_response` / `parse_status`.  Each carries its
message string. -/
inductive PyExc where
  | keyError (msg : String)
  | typeError (msg : String)
  | attributeError (msg : String)
  | commonError (msg : String)
  | generalError (msg : String)
  | connectionError (msg : String)
  | wrongStatusCodeError (msg : String)
  | messageNotSentError (msg : String)
deriving DecidableEq

/-- The Python class hierarchy of `src/exceptions.py`: `ConnectionError`,
`WrongStatusCodeError` and `MessageNotSentError` subclass `GeneralError`,
so all four are caught by `except exceptions.GeneralError`; `CommonError`,
`KeyError` and `TypeError` are not. -/
def PyExc.isGeneralExc : PyExc → Bool
  | .generalError _ => true
  | .connectionError _ => true
  | .wrongStatusCodeError _ => true
  | .messageNotSentError _ => true
  | _ => false

/-- Python's `f-string` rendering `f'\x7berror\x7d'` = `str(error)`: for the
project's exceptions and `TypeError` this is the message; `str` of a
`KeyError` is the `repr` of its argument, hence the extra quotes. -/
def PyExc.text : PyExc → String
  | .keyError m => "'" ++ m ++ "'"
  | .typeError m => m
  | .attributeError m => m
  | .commonError m => m
  | .generalError m => m
  | .connectionError m => m
  | .wrongStatusCodeError m => m
  | .messageNotSentError m => m

/-! ## Module-level constants of `src/homework.py` -/

/-- `os.getenv('PRACTICUM_TOKEN')`: absent in a clean environment. -/
def PRACTICUM_TOKEN : Option String := Option.none

/-- `os.getenv('TELEGRAM_CHAT_ID')`: absent in a clean environment. -/
def TELEGRAM_CHAT_ID : Option String := Option.none

def RETRY_PERIOD : Nat := 600

def ENDPOINT : String := "https://practicum.yandex.ru/api/user_api/homework_statuses/"

/-- `f-string` of an `os.getenv` result (Python renders `None` when absent). -/
def optStr (o : Option String) : String := o.getD "None"

/-- `str(HEADERS)` where `HEADERS = \x7b'Authorization': f'OAuth \x7bPRACTICUM_TOKEN\x7d'\x7d`. -/
def headersStr : String :=
  "\x7b'Authorization': 'OAuth " ++ optStr PRACTICUM_TOKEN ++ "'\x7d"

/-- `str(params)` where `params = \x7b'from_date': timestamp\x7d`. -/
def paramsStr (timestamp : Value) : String :=
  "\x7b'from_date': " ++ timestamp.pyRepr ++ "\x7d"

/-- The static verdict table `HOMEWORK_VERDICTS`. -/
def HOMEWORK_VERDICTS : List (String × String) :=
  [("approved", "Работа проверена: ревьюеру всё понравилось. Ура!"),
   ("reviewing", "Работа взята на проверку ревьюером."),
   ("rejected", "Работа проверена: у ревьюера есть замечания.")]

/-! ## `send_message` -/

/-- `send_message(bot, message)`.  The Telegram transport's behaviour is the
parameter `teleErr`: `some e` means `bot.send_message` raises a
`telegram.error.TelegramError` whose `str()` is `e`, in which case the
function raises `MessageNotSentError`; `none` means delivery succeeds. -/
def send_message (teleErr : Option String) (message : String) : Except PyExc Unit :=
  match teleErr with
  | some e =>
      .error (.messageNotSentError
        ("Ошибка отправки сообщения " ++ e ++ " (отправка в чат с id " ++
         optStr TELEGRAM_CHAT_ID ++ ", текст: " ++ message ++ ")."))
  | Option.none => .ok ()

/-! ## `get_api_answer` -/

/-- The body of a received HTTP response: parseable JSON (`json v`) or text
on which `.json()` raises a `JSONDecodeError` whose `str()` is `err`. -/
inductive Body where
  | json (v : Value)
  | invalid (err : String)

/-- What `requests.get(...)` followed by `.json()` can do: either the server
answered (`response status body`), or the request itself raised a
`requests.exceptions.RequestException` whose `str()` is `err`. -/
inductive Stimulus where
  | response (status : Nat) (body : Body)
  | transportError (err : String)

/-- `get_api_answer(timestamp)` driven by the stimulus `stim`:
* transport exception → `ConnectionError`;
* received response with status `!= 200` → `WrongStatusCodeError` (the body
  is never parsed on this path);
* status 200 and parseable body → the parsed body;
* status 200 and unparseable body → `GeneralError` (JSON decode failure). -/
def get_api_answer (timestamp : Value) (stim : Stimulus) : Except PyExc Value :=
  match stim with
  | .transportError e =>
      .error (.connectionError
        ("Ошибка соединения " ++ e ++ " (запрос к url: " ++ ENDPOINT ++
         ", заголовки: " ++ headersStr ++ ", параметры: " ++ paramsStr timestamp ++ ")."))
  | .response status body =>
      if status != 200 then
        .error (.wrongStatusCodeError
          ("Получен неожиданный ответ от сервера(ожидался HTTP Code 200, получен " ++
           toString status ++ ", запрос к url: " ++ ENDPOINT ++ ", заголовки: " ++
           headersStr ++ ",параметры: " ++ paramsStr timestamp ++ ")."))
      else
        match body with
        | .json v => .ok v
        | .invalid e =>
            .error (.generalError
              ("Не удалось получить json из ответа: ошибка формата данных " ++ e ++
               " (запрос к url: " ++ ENDPOINT ++ ", заголовки: " ++ headersStr ++
               ", параметры: " ++ paramsStr timestamp ++ ")."))

/-! ## `check_response` -/

/-- `check_response(response)`: a dict with both `homeworks` (a list) and
`current_date` present returns the `homeworks` list; every other shape
raises `TypeError` or `KeyError` naming the offending type / present keys. -/
def check_response (response : Value) : Except PyExc (List Value) :=
  match response with
  | .dict d =>
      if !pyContains d "homeworks" then
        .error (.keyError ("Ключа homeworks нет в словаре(пришли ключи " ++ keysStr d ++ ")."))
      else if !pyContains d "current_date" then
        .error (.keyError ("Ключа current_date нет в словаре(пришли ключи " ++ keysStr d ++ ")."))
      else
        match (d.lookup "homeworks").getD Value.none with
        | .list hs => .ok hs
        | v =>
            .error (.typeError
              ("Запрос к серверу пришёл не в виде списка(получен " ++ v.typeStr ++
               " вместо этого)."))
  | v =>
      .error (.typeError
        ("Ответ вернулся не в виде словаря(был получен " ++ v.typeStr ++ " вместо этого)."))

/-! ## `parse_status` -/

/-- `parse_status(homeworks)` on a dict entry (the source's parameter is named
`homeworks` though it is a single entry): missing `homework_name` or missing
`status` → `KeyError`; `status` bound to `None` → `CommonError` ("not
received"); a hashable `status` that is not a key of `HOMEWORK_VERDICTS`
(an unknown string, a number, a boolean) → `CommonError` ("not
recognized"); an unhashable `status` (a JSON list or object) makes the
membership test `homework_status not in HOMEWORK_VERDICTS` itself raise
`TypeError: unhashable type`; otherwise the fixed template with the name
and the verdict. -/
def parse_status (homeworks : PyDict) : Except PyExc String :=
  if !pyContains homeworks "homework_name" then
    .error (.keyError
      ("Ключ homework_name не обнаружен в словаре(присутствуют ключи " ++
       keysStr homeworks ++ ")."))
  else
    let homework_name := (homeworks.lookup "homework_name").getD Value.none
    if !pyContains homeworks "status" then
      .error (.keyError
        ("Ключ status не обнаружен в словаре(присутствуют ключи " ++
         keysStr homeworks ++ ")."))
    else
      match (homeworks.lookup "status").getD Value.none with
      | Value.none => .error (.commonError "Статус домашней работы не был получен.")
      | .str s =>
          match HOMEWORK_VERDICTS.lookup s with
          | some verdict =>
              .ok ("Изменился статус проверки работы \"" ++ homework_name.pyStr ++ "\". " ++ verdict)
          | Option.none => .error (.commonError "Статус не обнаружен в списке ожидаемых.")
      | .list _ => .error (.typeError "unhashable type: 'list'")
      | .dict _ => .error (.typeError "unhashable type: 'dict'")
      | _ => .error (.commonError "Статус не обнаружен в списке ожидаемых.")

/-- `parse_status` as called from `main` on `homeworks[0]`, which is an
arbitrary JSON value.  On a non-dict entry the Python body fails before any
domain logic:
* `'homework_name' not in homeworks` raises `TypeError: argument of type
  '...' is not iterable` for `int`, `bool` and `None` entries;
* for a `list`, membership holds only when the list contains the string
  `'homework_name'` itself, and then the subscript
  `homeworks['homework_name']` raises `TypeError: list indices must be
  integers or slices, not str`; otherwise building the `KeyError` message
  calls `homeworks.keys()`, raising `AttributeError`;
* for a `str`, membership is the substring test: a hit leads to the string
  subscript's `TypeError`, a miss to the `.keys()` `AttributeError`. -/
def parse_statusV : Value → Except PyExc String
  | .dict d => parse_status d
  | .list xs =>
      if xs.any (fun x => x.eqStr "homework_name") then
        .error (.typeError "list indices must be integers or slices, not str")
      else
        .error (.attributeError "'list' object has no attribute 'keys'")
  | .str s =>
      if strContains s "homework_name" then
        .error (.typeError "string indices must be integers")
      else
        .error (.attributeError "'str' object has no attribute 'keys'")
  | v => .error (.typeError ("argument of type '" ++ v.typeName ++ "' is not iterable"))

/-! ## `main`'s loop body -/

/-- `response.get('current_date')`: default `None` when the key is absent.
In the loop this is only reached on a dict that passed `check_response`. -/
def Value.getCurrentDate : Value → Value
  | .dict d => (d.lookup "current_date").getD Value.none
  | _ => Value.none

/-- The observable outcome of one iteration of `main`'s `while True:` body. -/
structure CycleResult where
  /-- The cursor after the iteration (`timestamp`). -/
  newTimestamp : Value
  /-- Messages successfully delivered to the chat during the iteration. -/
  sent : List String
  /-- `logging.error` entries written by `main`'s `except` handlers. -/
  errorsLogged : List String
  /-- The exception caught by one of `main`'s two `except` clauses, if any. -/
  handled : Option PyExc
  /-- The exception escaping the loop body (terminating the loop), if any. -/
  escaped : Option PyExc
  /-- Whether the `try` body ran to completion (through the cursor update). -/
  succeeded : Bool

/-- `main`'s `except` clauses, entered with exception `e`, cursor `ts` and no
message delivered so far this iteration.  `errSend` drives the
`bot.send_message` transport for the notification attempted inside
`except exceptions.GeneralError`.

A `GeneralError`-family exception is logged and forwarded to the chat; if
that forwarding itself raises `MessageNotSentError`, the new exception is
raised *inside* the first `except` clause, so Python does NOT hand it to the
sibling `except Exception` clause: it escapes the loop body.  Every other
exception is logged only. -/
def handleError (ts : Value) (errSend : Option String) (e : PyExc) : CycleResult :=
  if e.isGeneralExc then
    match send_message errSend e.text with
    | .ok _ => ⟨ts, [e.text], [e.text], some e, Option.none, false⟩
    | .error e2 => ⟨ts, [], [e.text], some e, some e2, false⟩
  else
    ⟨ts, [], [e.text], some e, Option.none, false⟩

/-- One iteration of `main`'s loop body, with cursor `ts`:
`get_api_answer` (driven by `stim`), `check_response`, then either
`send_message(bot, parse_status(homeworks[0]))` on a non-empty list or
`send_message(bot, 'Нет новых статусов')`, then
`timestamp = response.get('current_date')`; any exception goes to
`handleError`.  `mainSend` / `errSend` drive the Telegram transport for the
in-`try` and in-handler `send_message` calls respectively.  The trailing
`time.sleep(RETRY_PERIOD)` has no observable effect in this model. -/
def runCycle (ts : Value) (stim : Stimulus) (mainSend errSend : Option String) :
    CycleResult :=
  match get_api_answer ts stim with
  | .error e => handleError ts errSend e
  | .ok response =>
    match check_response response with
    | .error e => handleError ts errSend e
    | .ok homeworks =>
      match homeworks with
      | [] =>
        match send_message mainSend "Нет новых статусов" with
        | .error e => handleError ts errSend e
        | .ok _ =>
            ⟨response.getCurrentDate, ["Нет новых статусов"], [], Option.none, Option.none, true⟩
      | hw0 :: _ =>
        match parse_statusV hw0 with
        | .error e => handleError ts errSend e
        | .ok msg =>
          match send_message mainSend msg with
          | .error e => handleError ts errSend e
          | .ok _ =>
              ⟨response.getCurrentDate, [msg], [], Option.none, Option.none, true⟩

/-! ## Helper predicates -/

/-- `isinstance(v, list)`. -/
def Value.isList : Value → Bool
  | .list _ => true
  | _ => false

/-- `isinstance(v, dict)`. -/
def Value.isDict : Value → Bool
  | .dict _ => true
  | _ => false

/-- A result that is a raised `CommonError`. -/
def isCommonErrorR (r : Except PyExc String) : Bool :=
  match r with
  | .error (.commonError _) => true
  | _ => false

/-- A result that is a raised `KeyError`. -/
def isKeyErrorR (r : Except PyExc String) : Bool :=
  match r with
  | .error (.keyError _) => true
  | _ => false

/-- A status value that is hashable but outside the known codes: an unknown
string, a number or a boolean (never keys of the string-keyed table), or
`None` (handled first by the dedicated is-None check).  Unhashable values
(`list`, `dict`) are excluded — on them Python's membership test raises
`TypeError` instead of reporting the status as unknown. -/
def statusUnknown : Value → Bool
  | .str s => (HOMEWORK_VERDICTS.lookup s).isNone
  | .list _ => false
  | .dict _ => false
  | _ => true

/-- A status value on which `homework_status not in HOMEWORK_VERDICTS`
raises `TypeError: unhashable type`. -/
def statusUnhashable : Value → Bool
  | .list _ => true
  | .dict _ => true
  | _ => false

/-! ## Sample inputs (the spec's end-to-end scenarios) -/

/-- Scenario A response: one entry with status `approved`, `current_date` 1000. -/
def sampleResponseA : PyDict :=
  [("homeworks", Value.list
      [Value.dict [("homework_name", Value.str "X"), ("status", Value.str "approved")]]),
   ("current_date", Value.int 1000)]

/-- Scenario B response: empty entry list, `current_date` 2000. -/
def sampleResponseB : PyDict :=
  [("homeworks", Value.list []), ("current_date", Value.int 2000)]

/-- Scenario D response: `current_date` key absent. -/
def sampleResponseD : PyDict :=
  [("homeworks", Value.list [])]

/-- A response whose `current_date` is present but bound to a non-timestamp
value. -/
def sampleResponseWeird : PyDict :=
  [("homeworks", Value.list []), ("current_date", Value.str "not a timestamp")]

/-- The message of the `MessageNotSentError` raised when delivering the
fixed "no new statuses" text fails with a Telegram error "tg down". -/
def msgNotSentSample : String :=
  "Ошибка отправки сообщения tg down (отправка в чат с id None, " ++
  "текст: Нет новых статусов)."

/-! ## Helper lemmas -/

lemma handleError_escaped_common (ts : Value) (es : Option String) (e : PyExc)
    (h : e.isGeneralExc = false) :
    (handleError ts es e).escaped = Option.none := by
  simp [handleError, h]

lemma send_message_ok_iff (t : Option String) (m : String) :
    send_message t m = .ok () ↔ t = Option.none := by
  cases t <;> simp [send_message]

lemma get_api_answer_ok_iff (ts : Value) (stim : Stimulus) (v : Value) :
    get_api_answer ts stim = .ok v ↔ stim = .response 200 (.json v) := by
  cases stim with
  | transportError e => simp [get_api_answer]
  | response s b =>
    by_cases h : s = 200
    · subst h
      cases b <;> simp [get_api_answer]
    · have hb : (s != 200) = true := by simpa [bne_iff_ne] using h
      simp [get_api_answer, hb, h]

lemma check_response_ok_iff (r : Value) (hs : List Value) :
    check_response r = .ok hs ↔
      ∃ d, r = .dict d ∧ d.lookup "homeworks" = some (.list hs) ∧
        pyContains d "current_date" = true := by
  cases r with
  | dict d =>
    simp only [check_response, Value.dict.injEq]
    by_cases hcd : pyContains d "current_date" = true
    · rcases hhw : d.lookup "homeworks" with _ | v
      · have hc : pyContains d "homeworks" = false := by simp [pyContains, hhw]
        simp [hc, hhw]
      · have hc : pyContains d "homeworks" = true := by simp [pyContains, hhw]
        cases v <;> simp [hc, hcd, hhw]
    · have hcd' : pyContains d "current_date" = false := by
        simpa using hcd
      rcases hhw : d.lookup "homeworks" with _ | v
      · have hc : pyContains d "homeworks" = false := by simp [pyContains, hhw]
        simp [hc, hhw]
      · have hc : pyContains d "homeworks" = true := by simp [pyContains, hhw]
        simp [hc, hcd', hhw]
  | none => simp [check_response]
  | bool b => simp [check_response]
  | int n => simp [check_response]
  | str s => simp [check_response]
  | list l => simp [check_response]

lemma handleError_newTimestamp (ts : Value) (es : Option String) (e : PyExc) :
    (handleError ts es e).newTimestamp = ts := by
  cases es <;> by_cases h : e.isGeneralExc <;> simp [handleError, send_message, h]

lemma handleError_succeeded (ts : Value) (es : Option String) (e : PyExc) :
    (handleError ts es e).succeeded = false := by
  cases es <;> by_cases h : e.isGeneralExc <;> simp [handleError, send_message, h]

lemma handleError_handled (ts : Value) (es : Option String) (e : PyExc) :
    (handleError ts es e).handled = some e := by
  cases es <;> by_cases h : e.isGeneralExc <;> simp [handleError, send_message, h]

lemma handleError_logged (ts : Value) (es : Option String) (e : PyExc) :
    (handleError ts es e).errorsLogged = [e.text] := by
  cases es <;> by_cases h : e.isGeneralExc <;> simp [handleError, send_message, h]

lemma handleError_escaped_none (ts : Value) (e : PyExc) :
    (handleError ts Option.none e).escaped = Option.none := by
  by_cases h : e.isGeneralExc <;> simp [handleError, send_message, h]

lemma handleError_escaped_some (ts : Value) (es : Option String) (e e2 : PyExc)
    (h : (handleError ts es e).escaped = some e2) :
    es.isSome = true ∧ e.isGeneralExc = true ∧ ∃ m, e2 = .messageNotSentError m := by
  cases es with
  | none => by_cases hg : e.isGeneralExc <;> simp_all [handleError, send_message, hg]
  | some s =>
    by_cases hg : e.isGeneralExc
    · refine ⟨rfl, hg, ?_⟩
      simp [handleError, send_message, hg] at h
      exact ⟨_, h.symm⟩
    · simp [handleError, hg] at h

lemma handleError_sent_general_ok (ts : Value) (e : PyExc) (h : e.isGeneralExc = true) :
    (handleError ts Option.none e).sent = [e.text] := by
  simp [handleError, send_message, h]

lemma handleError_sent_common (ts : Value) (es : Option String) (e : PyExc)
    (h : e.isGeneralExc = false) :
    (handleError ts es e).sent = [] := by
  simp [handleError, h]

/-- Every loop iteration either ends in one of `main`'s `except` handlers or
runs the `try` body to completion (in which case the stimulus was a 200
response with a JSON dict body that passed validation, one message was
delivered, and the cursor was set from the response's `current_date`). -/
lemma runCycle_shape (ts : Value) (stim : Stimulus) (ms es : Option String) :
    (∃ e, runCycle ts stim ms es = handleError ts es e) ∨
    (∃ d hs msg, stim = .response 200 (.json (.dict d)) ∧
      check_response (.dict d) = .ok hs ∧
      runCycle ts stim ms es =
        ⟨(Value.dict d).getCurrentDate, [msg], [], Option.none, Option.none, true⟩) := by
  unfold runCycle
  split
  · exact Or.inl ⟨_, rfl⟩
  · rename_i response hok
    have hstim := (get_api_answer_ok_iff ts stim response).1 hok
    split
    · exact Or.inl ⟨_, rfl⟩
    · rename_i homeworks hcheck
      obtain ⟨d, rfl, hlk, hcd⟩ := (check_response_ok_iff response homeworks).1 hcheck
      split
      · split
        · exact Or.inl ⟨_, rfl⟩
        · exact Or.inr ⟨d, _, _, hstim, hcheck, rfl⟩
      · split
        · exact Or.inl ⟨_, rfl⟩
        · split
          · exact Or.inl ⟨_, rfl⟩
          · exact Or.inr ⟨d, _, _, hstim, hcheck, rfl⟩

/-! ## Claims -/

/-- Claim C2: for every stimulus, `get_api_answer` produces exactly one of
four mutually exclusive, exhaustive outcomes — HTTP 200 with parseable JSON
returns the parsed body; any non-200 status raises `WrongStatusCodeError`; a
200 response whose body is not parseable JSON raises a `GeneralError` decode
error; a transport-level exception raises `ConnectionError`.  Each outcome is
characterised exactly by its stimulus class (the four iffs), and the four
outcomes cover all stimuli (the final disjunction). -/
theorem get_api_answer_classification (ts : Value) (stim : Stimulus) :
    ((∃ v, get_api_answer ts stim = .ok v) ↔ (∃ v, stim = .response 200 (.json v)))
    ∧ ((∃ m, get_api_answer ts stim = .error (.wrongStatusCodeError m)) ↔
        (∃ s b, stim = .response s b ∧ s ≠ 200))
    ∧ ((∃ m, get_api_answer ts stim = .error (.generalError m)) ↔
        (∃ e, stim = .response 200 (.invalid e)))
    ∧ ((∃ m, get_api_answer ts stim = .error (.connectionError m)) ↔
        (∃ e, stim = .transportError e))
    ∧ ((∃ v, get_api_answer ts stim = .ok v) ∨
       (∃ m, get_api_answer ts stim = .error (.wrongStatusCodeError m)) ∨
       (∃ m, get_api_answer ts stim = .error (.generalError m)) ∨
       (∃ m, get_api_answer ts stim = .error (.connectionError m))) := by
  cases stim with
  | transportError e => simp [get_api_answer]
  | response s b =>
    by_cases h : s = 200
    · subst h
      cases b <;> simp [get_api_answer]
    · have hb : (s != 200) = true := by simpa [bne_iff_ne] using h
      simp [get_api_answer, hb, h]

/-- Claim C3: for every entry mapping with a `homework_name` field and a
`status` field holding one of the three known codes, `parse_status` returns
the fixed template containing the homework name and exactly the static
verdict text from `HOMEWORK_VERDICTS`. -/
theorem parse_status_known_codes (hw : PyDict) (nameV : Value) (s verdict : String)
    (hname : hw.lookup "homework_name" = some nameV)
    (hstatus : hw.lookup "status" = some (.str s))
    (hverdict : HOMEWORK_VERDICTS.lookup s = some verdict) :
    parse_status hw =
      .ok ("Изменился статус проверки работы \"" ++ nameV.pyStr ++ "\". " ++ verdict) := by
  simp [parse_status, pyContains, hname, hstatus, hverdict]

/-- Witness for C3 at a concrete entry with status `approved`. -/
theorem parse_status_known_codes_witness :
    parse_status [("homework_name", Value.str "X"), ("status", Value.str "approved")] =
      .ok "Изменился статус проверки работы \"X\". Работа проверена: ревьюеру всё понравилось. Ура!" :=
  parse_status_known_codes
    [("homework_name", Value.str "X"), ("status", Value.str "approved")]
    (Value.str "X") "approved" "Работа проверена: ревьюеру всё понравилось. Ура!"
    rfl rfl rfl

/-- Claim C4, counterexample: on an entry whose `status` key is absent,
`parse_status` raises `KeyError`, not the domain error `CommonError` the
claim requires for the absent-key case. -/
theorem parse_status_missing_status_keyError :
    isCommonErrorR (parse_status [("homework_name", Value.str "X")]) = false ∧
    isKeyErrorR (parse_status [("homework_name", Value.str "X")]) = true :=
  ⟨rfl, rfl⟩

/-- Claim C4 as amended: for every entry (with `homework_name` present) whose
`status` key is present with a hashable value outside the three known codes
— including the empty string and `None` — `parse_status` fails with a
`CommonError`; when the `status` key is absent it fails with a `KeyError`
instead; and when the `status` value is an unhashable list or object, the
membership test itself fails with a `TypeError` (unhashable type). -/
theorem parse_status_unknown_status_errors (hw : PyDict)
    (hname : (hw.lookup "homework_name").isSome = true) :
    (∀ v, hw.lookup "status" = some v → statusUnknown v = true →
       ∃ m, parse_status hw = .error (.commonError m))
    ∧ (hw.lookup "status" = Option.none →
       ∃ m, parse_status hw = .error (.keyError m))
    ∧ (∀ v, hw.lookup "status" = some v → statusUnhashable v = true →
       ∃ m, parse_status hw = .error (.typeError m)) := by
  refine ⟨?_, ?_, ?_⟩
  · intro v hv hu
    cases v with
    | str s =>
      have hnone : HOMEWORK_VERDICTS.lookup s = Option.none := by
        simpa [statusUnknown, Option.isNone_iff_eq_none] using hu
      exact ⟨"Статус не обнаружен в списке ожидаемых.",
        by simp [parse_status, pyContains, hname, hv, hnone]⟩
    | none =>
      exact ⟨"Статус домашней работы не был получен.",
        by simp [parse_status, pyContains, hname, hv]⟩
    | bool b =>
      exact ⟨"Статус не обнаружен в списке ожидаемых.",
        by simp [parse_status, pyContains, hname, hv]⟩
    | int n =>
      exact ⟨"Статус не обнаружен в списке ожидаемых.",
        by simp [parse_status, pyContains, hname, hv]⟩
    | list l => simp [statusUnknown] at hu
    | dict d => simp [statusUnknown] at hu
  · intro hv
    exact ⟨"Ключ status не обнаружен в словаре(присутствуют ключи " ++ keysStr hw ++ ").",
      by simp [parse_status, pyContains, hname, hv]⟩
  · intro v hv hu
    cases v with
    | list l =>
      exact ⟨"unhashable type: 'list'",
        by simp [parse_status, pyContains, hname, hv]⟩
    | dict d =>
      exact ⟨"unhashable type: 'dict'",
        by simp [parse_status, pyContains, hname, hv]⟩
    | str s => simp [statusUnhashable] at hu
    | none => simp [statusUnhashable] at hu
    | bool b => simp [statusUnhashable] at hu
    | int n => simp [statusUnhashable] at hu

/-- Witness for C4 (amended) at a concrete entry with the empty-string
status. -/
theorem parse_status_unknown_status_errors_witness :
    ∃ m, parse_status [("homework_name", Value.str "X"), ("status", Value.str "")] =
      .error (.commonError m) :=
  (parse_status_unknown_status_errors
    [("homework_name", Value.str "X"), ("status", Value.str "")] rfl).1
    (Value.str "") rfl rfl

/-- Claim C1, counterexample: a connection error makes the loop enter the
`except GeneralError` handler; when the notification attempted there fails,
the `MessageNotSentError` raised inside that handler escapes the loop body —
it is NOT caught by the sibling `except Exception` clause — so the claim
that the loop body never lets an exception escape is false. -/
theorem notify_failure_escapes_loop :
    (runCycle (Value.int 0) (Stimulus.transportError "boom")
        Option.none (some "tg down")).escaped.isSome = true := rfl

/-- Claim C1 as amended: if the error-path `send_message` succeeds (or no
notification is attempted), no exception escapes the loop body; an exception
escapes exactly when a `GeneralError`-family error was being handled and the
handler's own `send_message` failed, and the escaping exception is that
secondary `MessageNotSentError`. -/
theorem loop_escape_characterization (ts : Value) (stim : Stimulus) (ms es : Option String) :
    (es = Option.none → (runCycle ts stim ms es).escaped = Option.none)
    ∧ (∀ e2, (runCycle ts stim ms es).escaped = some e2 →
        es.isSome = true ∧ (∃ m, e2 = .messageNotSentError m) ∧
        ∃ g, (runCycle ts stim ms es).handled = some g ∧ g.isGeneralExc = true) := by
  rcases runCycle_shape ts stim ms es with ⟨e, he⟩ | ⟨d, hs, msg, hstim, hcheck, he⟩
  · constructor
    · rintro rfl
      rw [he]
      exact handleError_escaped_none ts e
    · intro e2 h2
      rw [he] at h2
      obtain ⟨hes, hg, m, hm⟩ := handleError_escaped_some ts es e e2 h2
      refine ⟨hes, ⟨m, hm⟩, e, ?_, hg⟩
      rw [he, handleError_handled]
  · constructor
    · intro _
      rw [he]
    · intro e2 h2
      rw [he] at h2
      simp at h2

/-- Witness for C1 (amended): with a reliable error-path transport, the same
connection-error cycle lets nothing escape. -/
theorem loop_escape_characterization_witness :
    (runCycle (Value.int 0) (Stimulus.transportError "boom")
        Option.none Option.none).escaped = Option.none :=
  (loop_escape_characterization (Value.int 0) (Stimulus.transportError "boom")
    Option.none Option.none).1 rfl

/-- Claim C5: `check_response` returns the homeworks list unchanged whenever
the response is a dict containing both `homeworks` (bound to a list) and
`current_date`; otherwise it raises a `TypeError` or `KeyError` whose
message names the actual offending type or the keys actually present. -/
theorem check_response_characterization (response : Value) :
    (∀ d hs, response = .dict d → d.lookup "homeworks" = some (.list hs) →
       pyContains d "current_date" = true → check_response response = .ok hs)
    ∧ (∀ d, response = .dict d → pyContains d "homeworks" = false →
       check_response response = .error (.keyError
         ("Ключа homeworks нет в словаре(пришли ключи " ++ keysStr d ++ ").")))
    ∧ (∀ d, response = .dict d → pyContains d "homeworks" = true →
       pyContains d "current_date" = false →
       check_response response = .error (.keyError
         ("Ключа current_date нет в словаре(пришли ключи " ++ keysStr d ++ ").")))
    ∧ (∀ d v, response = .dict d → d.lookup "homeworks" = some v →
       v.isList = false → pyContains d "current_date" = true →
       check_response response = .error (.typeError
         ("Запрос к серверу пришёл не в виде списка(получен " ++ v.typeStr ++
          " вместо этого).")))
    ∧ (response.isDict = false →
       check_response response = .error (.typeError
         ("Ответ вернулся не в виде словаря(был получен " ++ response.typeStr ++
          " вместо этого)."))) := by
  refine ⟨?_, ?_, ?_, ?_, ?_⟩
  · rintro d hs rfl hlk hcd
    have hc : pyContains d "homeworks" = true := by simp [pyContains, hlk]
    simp [check_response, hc, hcd, hlk]
  · rintro d rfl hhw
    simp [check_response, hhw]
  · rintro d rfl hhw hcd
    simp [check_response, hhw, hcd]
  · rintro d v rfl hlk hv hcd
    have hc : pyContains d "homeworks" = true := by simp [pyContains, hlk]
    cases v <;> simp_all [check_response, Value.isList, Value.typeStr]
  · intro h
    cases response <;> simp_all [Value.isDict, check_response, Value.typeStr]

/-- Witness for C5 at the scenario-B response: the empty entries list is
returned unchanged. -/
theorem check_response_characterization_witness :
    check_response (Value.dict sampleResponseB) = .ok [] :=
  (check_response_characterization (Value.dict sampleResponseB)).1
    sampleResponseB [] rfl rfl rfl

/-- Claim C6: after every successful cycle (the `try` body ran to
completion), the cursor used for the next fetch equals the `current_date`
value reported in that cycle's server response — a value taken from the
response, not computed locally. -/
theorem cursor_from_server_timestamp (ts : Value) (stim : Stimulus) (ms es : Option String)
    (h : (runCycle ts stim ms es).succeeded = true) :
    ∃ d cd, stim = .response 200 (.json (.dict d)) ∧
      d.lookup "current_date" = some cd ∧
      (runCycle ts stim ms es).newTimestamp = cd := by
  rcases runCycle_shape ts stim ms es with ⟨e, he⟩ | ⟨d, hs, msg, hstim, hcheck, he⟩
  · rw [he, handleError_succeeded] at h
    cases h
  · obtain ⟨d', hd, hlk, hcd⟩ := (check_response_ok_iff (Value.dict d) hs).1 hcheck
    have hdd : d = d' := by injection hd
    subst hdd
    obtain ⟨cd, hcd2⟩ : ∃ cd, d.lookup "current_date" = some cd := by
      simpa [pyContains, Option.isSome_iff_exists] using hcd
    refine ⟨d, cd, hstim, hcd2, ?_⟩
    rw [he]
    simp [Value.getCurrentDate, hcd2]

/-- Witness for C6 at the scenario-B response: the cursor becomes the
server-reported 2000. -/
theorem cursor_from_server_timestamp_witness :
    ∃ d cd,
      Stimulus.response 200 (Body.json (Value.dict sampleResponseB)) =
        .response 200 (.json (.dict d)) ∧
      d.lookup "current_date" = some cd ∧
      (runCycle (Value.int 0) (Stimulus.response 200 (Body.json (Value.dict sampleResponseB)))
          Option.none Option.none).newTimestamp = cd :=
  cursor_from_server_timestamp (Value.int 0)
    (Stimulus.response 200 (Body.json (Value.dict sampleResponseB)))
    Option.none Option.none rfl

/-- Claim C7: the loop routes every caught failure by kind — a
`GeneralError`-family error is logged and forwarded to the chat (delivered
whenever the error-path transport works), while every other exception
(`TypeError`, `KeyError`, `CommonError`) is logged only, with no chat
message sent in that cycle. -/
theorem error_routing_by_kind (ts : Value) (stim : Stimulus) (ms es : Option String)
    (e : PyExc) (h : (runCycle ts stim ms es).handled = some e) :
    (e.isGeneralExc = true →
       e.text ∈ (runCycle ts stim ms es).errorsLogged ∧
       (es = Option.none → e.text ∈ (runCycle ts stim ms es).sent))
    ∧ (e.isGeneralExc = false →
       e.text ∈ (runCycle ts stim ms es).errorsLogged ∧
       (runCycle ts stim ms es).sent = []) := by
  rcases runCycle_shape ts stim ms es with ⟨e', he⟩ | ⟨d, hs, msg, hstim, hcheck, he⟩
  · rw [he, handleError_handled] at h
    obtain rfl : e' = e := by injection h
    constructor
    · intro hg
      refine ⟨?_, ?_⟩
      · rw [he, handleError_logged]
        exact List.mem_singleton.2 rfl
      · rintro rfl
        rw [he, handleError_sent_general_ok ts e' hg]
        exact List.mem_singleton.2 rfl
    · intro hg
      refine ⟨?_, ?_⟩
      · rw [he, handleError_logged]
        exact List.mem_singleton.2 rfl
      · rw [he, handleError_sent_common ts es e' hg]
  · rw [he] at h
    simp at h

/-- Witness for C7: when the primary delivery fails, the resulting
`MessageNotSentError` (a must-notify error) is both logged and forwarded to
the chat. -/
theorem error_routing_by_kind_witness :
    (PyExc.messageNotSentError msgNotSentSample).text ∈
      (runCycle (Value.int 0) (Stimulus.response 200 (Body.json (Value.dict sampleResponseB)))
        (some "tg down") Option.none).errorsLogged ∧
    (PyExc.messageNotSentError msgNotSentSample).text ∈
      (runCycle (Value.int 0) (Stimulus.response 200 (Body.json (Value.dict sampleResponseB)))
        (some "tg down") Option.none).sent := by
  have h := error_routing_by_kind (Value.int 0)
    (Stimulus.response 200 (Body.json (Value.dict sampleResponseB)))
    (some "tg down") Option.none
    (PyExc.messageNotSentError msgNotSentSample) (by decide)
  exact ⟨(h.1 rfl).1, (h.1 rfl).2 rfl⟩

/-- Claim C8: when the cycle's 200-response dict lacks `current_date` (with
`homeworks` present, scenario D), the cycle ends in a common, log-only
error: nothing is sent to the chat, the cursor is unchanged, nothing escapes
the loop body, and the caught exception is a `KeyError` that is logged. -/
theorem missing_current_date_log_only (ts : Value) (d : PyDict) (ms es : Option String)
    (hhw : pyContains d "homeworks" = true)
    (hcd : pyContains d "current_date" = false) :
    (runCycle ts (.response 200 (.json (.dict d))) ms es).sent = []
    ∧ (runCycle ts (.response 200 (.json (.dict d))) ms es).newTimestamp = ts
    ∧ (runCycle ts (.response 200 (.json (.dict d))) ms es).escaped = Option.none
    ∧ ∃ m, (runCycle ts (.response 200 (.json (.dict d))) ms es).handled =
          some (PyExc.keyError m)
        ∧ (runCycle ts (.response 200 (.json (.dict d))) ms es).errorsLogged =
          [(PyExc.keyError m).text] := by
  have hg : get_api_answer ts (.response 200 (.json (.dict d))) = .ok (.dict d) := rfl
  have hc : check_response (Value.dict d) = .error (.keyError
      ("Ключа current_date нет в словаре(пришли ключи " ++ keysStr d ++ ").")) := by
    simp [check_response, hhw, hcd]
  have hr : runCycle ts (.response 200 (.json (.dict d))) ms es =
      handleError ts es (.keyError
        ("Ключа current_date нет в словаре(пришли ключи " ++ keysStr d ++ ").")) := by
    simp [runCycle, hg, hc]
  refine ⟨?_, ?_, ?_, "Ключа current_date нет в словаре(пришли ключи " ++ keysStr d ++ ").",
    ?_, ?_⟩
  · rw [hr]
    exact handleError_sent_common ts es _ rfl
  · rw [hr, handleError_newTimestamp]
  · rw [hr]
    exact handleError_escaped_common ts es _ rfl
  · rw [hr, handleError_handled]
  · rw [hr, handleError_logged]

/-- Witness for C8 at the scenario-D response. -/
theorem missing_current_date_log_only_witness :
    (runCycle (Value.int 100) (.response 200 (.json (.dict sampleResponseD)))
        Option.none Option.none).sent = []
    ∧ (runCycle (Value.int 100) (.response 200 (.json (.dict sampleResponseD)))
        Option.none Option.none).newTimestamp = Value.int 100
    ∧ (runCycle (Value.int 100) (.response 200 (.json (.dict sampleResponseD)))
        Option.none Option.none).escaped = Option.none
    ∧ ∃ m, (runCycle (Value.int 100) (.response 200 (.json (.dict sampleResponseD)))
          Option.none Option.none).handled = some (PyExc.keyError m)
        ∧ (runCycle (Value.int 100) (.response 200 (.json (.dict sampleResponseD)))
          Option.none Option.none).errorsLogged = [(PyExc.keyError m).text] :=
  missing_current_date_log_only (Value.int 100) sampleResponseD
    Option.none Option.none rfl rfl

/-- Claim C9, counterexample: on a response lacking `current_date`, the loop
does NOT assign an unset/None cursor — the cursor retains its previous value
(here the integer 100), because validation raises before the assignment. -/
theorem missing_current_date_not_none_cursor :
    (runCycle (Value.int 100) (Stimulus.response 200 (Body.json (Value.dict sampleResponseD)))
        Option.none Option.none).newTimestamp = Value.int 100
    ∧ (runCycle (Value.int 100) (Stimulus.response 200 (Body.json (Value.dict sampleResponseD)))
        Option.none Option.none).newTimestamp ≠ Value.none :=
  ⟨rfl, fun h => Value.noConfusion h⟩

/-- Claim C9 as amended: when the server response lacks the `current_date`
field, `check_response` raises a `KeyError` before the loop reaches the
cursor assignment, so the cycle fails (the `try` body does not complete) and
the cursor is left unchanged — it is never silently set to None, and the
next request is issued with the previous `from_date`. -/
theorem missing_current_date_cursor_unchanged (ts : Value) (d : PyDict) (ms es : Option String)
    (hcd : pyContains d "current_date" = false) :
    (runCycle ts (.response 200 (.json (.dict d))) ms es).newTimestamp = ts
    ∧ (runCycle ts (.response 200 (.json (.dict d))) ms es).succeeded = false := by
  have hg : get_api_answer ts (.response 200 (.json (.dict d))) = .ok (.dict d) := rfl
  have hkey : ∃ m, check_response (Value.dict d) = .error (.keyError m) := by
    by_cases hhw : pyContains d "homeworks" = true
    · exact ⟨"Ключа current_date нет в словаре(пришли ключи " ++ keysStr d ++ ").",
        by simp [check_response, hhw, hcd]⟩
    · have hhw' : pyContains d "homeworks" = false := by simpa using hhw
      exact ⟨"Ключа homeworks нет в словаре(пришли ключи " ++ keysStr d ++ ").",
        by simp [check_response, hhw']⟩
  obtain ⟨m, hc⟩ := hkey
  have hr : runCycle ts (.response 200 (.json (.dict d))) ms es =
      handleError ts es (.keyError m) := by
    simp [runCycle, hg, hc]
  exact ⟨by rw [hr, handleError_newTimestamp], by rw [hr, handleError_succeeded]⟩

/-- Witness for C9 (amended) at the scenario-D response. -/
theorem missing_current_date_cursor_unchanged_witness :
    (runCycle (Value.int 42) (.response 200 (.json (.dict sampleResponseD)))
        Option.none Option.none).newTimestamp = Value.int 42
    ∧ (runCycle (Value.int 42) (.response 200 (.json (.dict sampleResponseD)))
        Option.none Option.none).succeeded = false :=
  missing_current_date_cursor_unchanged (Value.int 42) sampleResponseD
    Option.none Option.none rfl

/-- Claim C10: `check_response` checks only the presence of the
`current_date` key, never its type or value — any response dict with a
`homeworks` list and any `current_date` value whatsoever validates, and
after a successful cycle that arbitrary value becomes the cursor passed as
the `from_date` of the next fetch. -/
theorem current_date_presence_only (d : PyDict) (hs : List Value) (cd : Value)
    (hhw : d.lookup "homeworks" = some (.list hs))
    (hcd : d.lookup "current_date" = some cd) :
    check_response (.dict d) = .ok hs
    ∧ ∀ ts ms es, (runCycle ts (.response 200 (.json (.dict d))) ms es).succeeded = true →
        (runCycle ts (.response 200 (.json (.dict d))) ms es).newTimestamp = cd := by
  have hcont : pyContains d "current_date" = true := by simp [pyContains, hcd]
  have hok : check_response (Value.dict d) = .ok hs :=
    (check_response_ok_iff (Value.dict d) hs).2 ⟨d, rfl, hhw, hcont⟩
  refine ⟨hok, ?_⟩
  intro ts ms es hsucc
  rcases runCycle_shape ts (.response 200 (.json (.dict d))) ms es with
    ⟨e, he⟩ | ⟨d2, hs2, msg, hstim, hcheck2, he⟩
  · rw [he, handleError_succeeded] at hsucc
    cases hsucc
  · simp only [Stimulus.response.injEq, Body.json.injEq, Value.dict.injEq] at hstim
    obtain ⟨-, rfl⟩ := hstim
    rw [he]
    simp [Value.getCurrentDate, hcd]

/-- Witness for C10: a string-valued `current_date` passes validation and
becomes the next cursor. -/
theorem current_date_presence_only_witness :
    check_response (Value.dict sampleResponseWeird) = .ok []
    ∧ (runCycle (Value.int 0) (.response 200 (.json (.dict sampleResponseWeird)))
        Option.none Option.none).newTimestamp = Value.str "not a timestamp" := by
  have h := current_date_presence_only sampleResponseWeird [] (Value.str "not a timestamp")
    rfl rfl
  exact ⟨h.1, h.2 (Value.int 0) Option.none Option.none rfl⟩

end HomeworkBot
